import Mathlib

/-!
Verification development for the TgVk cross-posting repository.

The definitions below are shallow embeddings of the Python source:
pure computations become Lean functions, stateful or effectful code is
given explicit state or oracle parameters describing the outcomes of the
external calls (HTTP requests, database queries, filesystem operations),
and code that can raise returns Option or Except.  Each definition names
the source function it embeds.
-/

namespace TgVk

/-! ## VK client configuration (src/config/init.py, src/services/vk/client.py) -/

/-- Embedding of format_owner_id in src/config/init.py.  For an integer
target id, str(target_id).strip() starts with a minus sign exactly when the
id is negative; the function returns the id itself in that case and its
negation otherwise, i.e. always the non-positive form of the id. -/
def format_owner_id (t : Int) : Int :=
  if t < 0 then t else -t

/-- The relevant part of the VkClient mutable configuration dictionary,
as written by VkClient.configure. -/
structure VkConfig where
  access_token : String
  target_id : Int
  post_as_group : Int
deriving Repr, DecidableEq

/-- Embedding of VkClient.configure in src/services/vk/client.py.
The Python code raises ValueError when access_token or target_id is falsy
(empty string, zero); this is modelled by returning none.  In post-as-group
mode (post_as_group = 1) the stored target id is abs(format_owner_id t);
otherwise it is abs(t). -/
def configure (access_token : String) (target_id : Int) (post_as_group : Int) :
    Option VkConfig :=
  if access_token = "" ∨ target_id = 0 then none
  else if post_as_group = 1 then
    some ⟨access_token, |format_owner_id target_id|, post_as_group⟩
  else
    some ⟨access_token, |target_id|, post_as_group⟩

/-- Embedding of the owner_id computation in VkClient.create_post
(src/services/vk/client.py, lines 243-246): account mode (post_as_group = 0)
submits the stored target id, any other mode submits minus its absolute
value. -/
def create_post_owner_id (cfg : VkConfig) : Int :=
  if cfg.post_as_group = 0 then cfg.target_id else -|cfg.target_id|

/-! ## Credential refresh (VkClient.refresh_token_if_needed) -/

/-- One row of the vk_targets table as selected by
VkClient.refresh_token_if_needed: access token, refresh token and the
parsed expires_at timestamp (none when the column is null). -/
structure TargetRow where
  access_token : String
  refresh_token : Option String
  expires_at : Option Int
deriving Repr, DecidableEq

/-- Embedding of VkClient._refresh_vk_token.  The argument credsOk states
whether VK_CLIENT_ID and VK_CLIENT_SECRET are configured (if not, the
function returns None before any HTTP request); httpNewToken is the access
token extracted from the oauth response (none on a non-200 response or a
missing field).  The second component counts HTTP requests made to the
identity provider token endpoint.  The refetch of the refresh token from
the same, already selected row is collapsed, since it does not change the
number of token-endpoint calls. -/
def refresh_vk_token (credsOk : Bool) (httpNewToken : Option String) :
    Option String × Nat :=
  if credsOk then (httpNewToken, 1) else (none, 0)

/-- Embedding of VkClient.refresh_token_if_needed.  The row argument is the
result of the vk_targets select (none when the table has no active row for
the target, or when supabase is unavailable); now is time.time() in whole
seconds.  Result: the returned boolean and the number of refresh calls made
to the identity provider.  The code refreshes when expires_at is present and
now + 300 >= expires_at, or when expires_at is missing; otherwise it reuses
the stored token (updating only its local cache) and makes no refresh
call. -/
def refresh_token_if_needed (row : Option TargetRow) (now : Int)
    (credsOk : Bool) (httpNewToken : Option String) : Bool × Nat :=
  match row with
  | none => (false, 0)
  | some r =>
    match r.expires_at with
    | some expiry =>
      if now + 300 ≥ expiry then
        let res := refresh_vk_token credsOk httpNewToken
        (res.1.isSome, res.2)
      else (true, 0)
    | none =>
      let res := refresh_vk_token credsOk httpNewToken
      (res.1.isSome, res.2)

/-! ## Retry helper (VkClient._execute_with_retry) -/

/-- Outcome of one invocation of the operation passed to
VkClient._execute_with_retry: a normal return, a VkApiError (the class the
except clause catches), or any other exception (which the helper does not
catch). -/
inductive CallOutcome (α : Type) where
  | ok (v : α)
  | vkError (e : Nat)
  | otherError (e : Nat)
deriving Repr, DecidableEq

/-- Result of VkClient._execute_with_retry: a returned value, a re-raised
VkApiError (final attempt), a propagated non-VkApiError exception, or the
fall-through return None after the loop (reachable only with zero
attempts). -/
inductive RetryResult (α : Type) where
  | ok (v : α)
  | vkRaise (e : Nat)
  | otherRaise (e : Nat)
  | exhausted
deriving Repr, DecidableEq

/-- Loop body of VkClient._execute_with_retry, starting at the given
attempt index with the given number of remaining iterations.  Returns the
result, the number of calls made to the operation, and the list of sleep
durations (in seconds) in order.  A VkApiError on the final attempt is
re-raised with no sleep; on an earlier attempt the helper sleeps
2 ^ attempt seconds and retries; any other exception propagates at once. -/
def executeWithRetryAux {α : Type} (outcomes : Nat → CallOutcome α)
    (attempt : Nat) : Nat → RetryResult α × Nat × List Nat
  | 0 => (RetryResult.exhausted, 0, [])
  | Nat.succ remaining =>
    match outcomes attempt with
    | CallOutcome.ok v => (RetryResult.ok v, 1, [])
    | CallOutcome.otherError e => (RetryResult.otherRaise e, 1, [])
    | CallOutcome.vkError e =>
      match remaining with
      | 0 => (RetryResult.vkRaise e, 1, [])
      | Nat.succ r =>
        let rec1 := executeWithRetryAux outcomes (attempt + 1) (Nat.succ r)
        (rec1.1, rec1.2.1 + 1, 2 ^ attempt :: rec1.2.2)

/-- Embedding of VkClient._execute_with_retry with max_retries attempts
(the VkClient constructor default is 3). -/
def executeWithRetry {α : Type} (maxRetries : Nat)
    (outcomes : Nat → CallOutcome α) : RetryResult α × Nat × List Nat :=
  executeWithRetryAux outcomes 0 maxRetries

/-! ## Edit retry loop (EditedHandler.handle) -/

/-- Outcome of one call to VkClient.edit_post as seen by the retry loop in
EditedHandler.handle: returned True, returned False, or raised. -/
inductive EditAttempt where
  | ok
  | retFalse
  | raised
deriving Repr, DecidableEq

/-- Retry loop of EditedHandler.handle, starting at the given attempt index
with the given number of remaining iterations.  Returns the overall result,
the number of edit_post calls made, and the sleep durations between
attempts.  A success returns True immediately; a failure (returned False or
raised) on the final attempt returns False; an earlier failure is followed
by a sleep of 2 ^ attempt seconds and a retry. -/
def editedHandleAux (outcomes : Nat → EditAttempt) (attempt : Nat) :
    Nat → Bool × Nat × List Nat
  | 0 => (false, 0, [])
  | Nat.succ remaining =>
    match outcomes attempt with
    | EditAttempt.ok => (true, 1, [])
    | _ =>
      match remaining with
      | 0 => (false, 1, [])
      | Nat.succ r =>
        let rec1 := editedHandleAux outcomes (attempt + 1) (Nat.succ r)
        (rec1.1, rec1.2.1 + 1, 2 ^ attempt :: rec1.2.2)

/-- Embedding of the edit-retry loop in EditedHandler.handle with its
configured max_edit_attempts = 3. -/
def editedHandle (outcomes : Nat → EditAttempt) : Bool × Nat × List Nat :=
  editedHandleAux outcomes 0 3

/-! ## Media download and the single-media pipeline
(src/utils/file_utils.py FileManager.download_file,
src/handlers/telegram/media_handler.py MediaHandler) -/

/-- Outcome of one iteration of the retry loop in
FileManager.download_file, determined by the external Telegram calls:
bot.get_file raises; the declared file size exceeds max_size (checked
before downloading); bot.download_file raises without having written the
destination; bot.download_file raises after a partial write (the
destination file exists); or the download completes and the subsequent
MIME-type validation passes or fails. -/
inductive DlAttempt where
  | getFileErr
  | sizeExceeded
  | dlErrClean
  | dlErrDirty
  | dlOk (validMime : Bool)
deriving Repr, DecidableEq

/-- Error codes returned by FileManager.download_file. -/
inductive DlCode where
  | fileSizeExceeded
  | invalidFileType
  | downloadFailed
  | criticalError
deriving Repr, DecidableEq

/-- Embedding of FileManager.download_file.  The list holds the outcome of
each attempt (its length is the retries argument, 3 at the call sites);
the boolean accumulator tracks whether the destination file exists on
disk.  Returns (success flag, error code, destination file exists on
return).  On a size violation the function returns at once; on an invalid
MIME type it unlinks the destination and returns; an exception on the
final attempt is re-raised and caught by the outer handler, which returns
the CRITICAL_ERROR code without touching the destination file; the
generated checksum is modelled as always succeeding. -/
def download_file_loop : List DlAttempt → Bool → Bool × Option DlCode × Bool
  | [], fileExists => (false, some DlCode.downloadFailed, fileExists)
  | a :: rest, fileExists =>
    match a with
    | DlAttempt.getFileErr =>
      if rest.isEmpty then (false, some DlCode.criticalError, fileExists)
      else download_file_loop rest fileExists
    | DlAttempt.sizeExceeded =>
      (false, some DlCode.fileSizeExceeded, fileExists)
    | DlAttempt.dlErrClean =>
      if rest.isEmpty then (false, some DlCode.criticalError, fileExists)
      else download_file_loop rest fileExists
    | DlAttempt.dlErrDirty =>
      if rest.isEmpty then (false, some DlCode.criticalError, true)
      else download_file_loop rest true
    | DlAttempt.dlOk validMime =>
      if validMime then (true, none, true)
      else (false, some DlCode.invalidFileType, false)

/-- FileManager.download_file invoked on a fresh scratch path (the
destination produced by get_temp_path does not exist yet). -/
def download_file (attempts : List DlAttempt) : Bool × Option DlCode × Bool :=
  download_file_loop attempts false

/-- The fields of an inbound Telegram message that the media pipeline
reads: the forwarded-from-user and forwarded-from-chat markers, the
caption, and the declared size of the largest photo version. -/
structure PhotoMsg where
  forward_from : Option Int
  forward_from_chat : Option Int
  caption : Option String
  file_size : Nat
deriving Repr, DecidableEq

/-- Embedding of BaseHandler.is_user_forward: the message is forwarded
from an individual user when forward_from is set and forward_from_chat is
absent. -/
def is_user_forward (m : PhotoMsg) : Bool :=
  m.forward_from.isSome && m.forward_from_chat.isNone

/-- Externally visible actions of the single-media pipeline: entering the
download step (FileManager.download_file), entering the VK upload step
(VkClient.upload_media), and a wall-post submission with its text,
comma-joined attachment string and copyright field
(VkClient.create_post). -/
inductive MEv where
  | download
  | upload
  | createPost (text : String) (attachments : String) (copyright : Option String)
deriving Repr, DecidableEq

/-- Embedding of MediaHandler.handle_oversized_file for a photo: the text
of the submitted post is the caption (empty string when absent) followed
by the notice that the photo is available via the source link, with no
attachments and the source link in the copyright field. -/
def oversized_post_event (caption : Option String) (sourceLink : String) : MEv :=
  MEv.createPost
    ((caption.getD "") ++ "\n\n" ++ "Фото доступен по ссылке: " ++ sourceLink)
    "" (some sourceLink)

/-- Embedding of MediaHandler._publish_post.  Its first statement
references the name refresh_token_if_needed, which is neither defined nor
imported in media_handler.py, so every call raises NameError; the except
clause catches it and returns None, before any wall.post call is made. -/
def publish_post : Option Nat := none

/-- Embedding of MediaHandler._handle_photo.  Arguments: the message, the
configured MAX_FILE_SIZE, the source link from the handler context, the
outcomes of the download attempts, and the result of the create_post call
made by handle_oversized_file.  Returns the handler result, whether the
scratch file still exists on the filesystem on return, and the list of
performed actions.  An oversized photo goes to handle_oversized_file
without any download; a failed download returns None immediately; after a
successful download the upload and publish steps run inside try/finally,
whose finally block deletes the scratch file. -/
def handle_photo (m : PhotoMsg) (maxFileSize : Nat) (sourceLink : String)
    (dl : List DlAttempt) (oversizedPostRes : Option Nat) :
    Option Nat × Bool × List MEv :=
  if m.file_size > maxFileSize then
    (oversizedPostRes, false, [oversized_post_event m.caption sourceLink])
  else
    let r := download_file dl
    if r.1 = false then (none, r.2.2, [MEv.download])
    else (publish_post, false, [MEv.download, MEv.upload])

/-- Embedding of MediaHandler.handle for a photo message.  The settings
argument abstracts BaseHandler.setup: none when the channel has no active
crosspost configuration (or setup fails), in which case the handler
returns None having made no VK call.  A message forwarded from an
individual user is skipped before setup runs: the handler returns None,
no scratch file is created, and no action of any kind is performed. -/
def media_handle (m : PhotoMsg) (settings : Option Unit) (maxFileSize : Nat)
    (sourceLink : String) (dl : List DlAttempt)
    (oversizedPostRes : Option Nat) : Option Nat × Bool × List MEv :=
  if is_user_forward m then (none, false, [])
  else
    match settings with
    | none => (none, false, [])
    | some _ => handle_photo m maxFileSize sourceLink dl oversizedPostRes

/-! ## Post-mapping store (src/services/database/repository.py) -/

/-- One row of the posts table, restricted to the columns the upsert and
the lookup read or write.  The optional columns (content, media_group_id,
telegram_channel_id, published_at, processing_attempts) play no role in
the keyed upsert logic and are elided. -/
structure PostRow where
  user_id : Int
  telegram_message_id : Int
  vk_post_id : String
  status : String
deriving Repr, DecidableEq

/-- The pair of eq filters used by both the existence check and the update
in DatabaseRepository.save_post_mapping, and by the lookup in
DatabaseRepository.get_post_by_message_id. -/
def post_key_matches (user_id telegram_message_id : Int) (r : PostRow) :
    Bool :=
  r.telegram_message_id == telegram_message_id && r.user_id == user_id

/-- The column assignment applied by the update branch of
DatabaseRepository.save_post_mapping. -/
def apply_post_update (vk_post_id : String) (r : PostRow) : PostRow :=
  { r with vk_post_id := vk_post_id, status := "published" }

/-- Embedding of DatabaseRepository.save_post_mapping: select the rows
matching (telegram_message_id, user_id); if any exists, update every
matching row in place, otherwise insert a fresh row. -/
def save_post_mapping (table : List PostRow)
    (user_id telegram_message_id : Int) (vk_post_id : String) :
    List PostRow :=
  let check := table.filter (post_key_matches user_id telegram_message_id)
  if 0 < check.length then
    table.map fun r =>
      if post_key_matches user_id telegram_message_id r then
        apply_post_update vk_post_id r
      else r
  else
    table ++ [⟨user_id, telegram_message_id, vk_post_id, "published"⟩]

/-- Embedding of DatabaseRepository.get_post_by_message_id: the first row
matching both eq filters, if any. -/
def get_post_by_message_id (table : List PostRow)
    (telegram_message_id user_id : Int) : Option PostRow :=
  (table.filter (post_key_matches user_id telegram_message_id)).head?

/-! ## Post editing (VkClient.edit_post, EditedHandler.handle) -/

/-- One attachment of the destination post as returned by wall.getById:
its type string, whether the attachment object carries a key equal to that
type string, and the owner and item ids found under that key (0 models a
missing or falsy value, matching the Python truthiness test). -/
structure VkAttachment where
  attach_kind : String
  hasTyped : Bool
  owner_id : Int
  item_id : Int
deriving Repr, DecidableEq

/-- The attachment token rebuilt by VkClient.edit_post from one fetched
attachment: the type string, the owner id and the item id. -/
def attachment_token (a : VkAttachment) : String :=
  a.attach_kind ++ toString a.owner_id ++ "_" ++ toString a.item_id

/-- Embedding of the attachment-extraction loop in VkClient.edit_post:
an attachment contributes a token when its type string is truthy, the
typed entry is present, and both owner id and item id are truthy. -/
def extract_attachment_tokens (atts : List VkAttachment) : List String :=
  atts.filterMap fun a =>
    if a.attach_kind ≠ "" ∧ a.hasTyped = true ∧ a.owner_id ≠ 0 ∧
        a.item_id ≠ 0 then
      some (attachment_token a)
    else none

/-- The owner id used by VkClient.edit_post, computed exactly as in
VkClient.create_post. -/
def edit_owner_id (cfg : VkConfig) : Int :=
  if cfg.post_as_group = 0 then cfg.target_id else -|cfg.target_id|

/-- The parameters VkClient.edit_post passes to wall.edit. -/
structure EditSubmission where
  owner_id : Int
  post_id : Int
  message : String
  attachments : String
  copyright : Option String
deriving Repr, DecidableEq

/-- Embedding of VkClient.edit_post.  Arguments: whether the API client is
initialised; the client configuration; the post id and the new text; the
message_id argument (EditedHandler.handle omits it, so it defaults to
none, and a zero id is falsy in the Python truth test); an oracle for
get_source_link_for_edit; the attachment list of the first post of the
wall.getById response (none when the fetch raised or returned an empty or
falsy response); and whether the wall.edit call succeeds.  Returns the
boolean result and the submission passed to wall.edit, if one was made. -/
def edit_post (apiInit : Bool) (cfg : VkConfig) (post_id : Int)
    (new_text : String) (message_id : Option Int)
    (source_link_oracle : Int → String)
    (old_post : Option (List VkAttachment)) (editOk : Bool) :
    Bool × Option EditSubmission :=
  if !apiInit then (false, none)
  else
    match old_post with
    | none => (false, none)
    | some atts =>
      let tokens := extract_attachment_tokens atts
      let source_link : Option String :=
        match message_id with
        | some mid =>
          if mid ≠ 0 then some (source_link_oracle mid) else none
        | none => none
      let submission : EditSubmission :=
        { owner_id := edit_owner_id cfg, post_id := post_id,
          message := new_text,
          attachments := String.intercalate "," tokens,
          copyright := source_link }
      if editOk then (true, some submission) else (false, some submission)

/-! ## Media upload and post creation results (VkClient.upload_media,
VkClient.create_post) -/

/-- Exceptions that can escape VkClient.upload_media and, hypothetically,
VkClient.create_post. -/
inductive PyExc where
  | valueError
  | attributeError
  | typeError
deriving Repr, DecidableEq

/-- The owner and item ids extracted from a successful upload response
(the exact field names differ per media kind but the token shape is the
same). -/
structure UploadOk where
  owner_id : Int
  item_id : Int
deriving Repr, DecidableEq

/-- The keys of the upload_methods dictionary in VkClient.upload_media. -/
def supported_media_types : List String := ["photo", "video", "audio", "doc"]

/-- The max_sizes table in VkClient.upload_media, with its 100 MB dict-get
default. -/
def max_upload_size (media_type : String) : Nat :=
  if media_type = "photo" then 50 * 1024 * 1024
  else if media_type = "video" then 2 * 1024 * 1024 * 1024
  else if media_type = "audio" then 200 * 1024 * 1024
  else if media_type = "doc" then 200 * 1024 * 1024
  else 100 * 1024 * 1024

/-- The attachment-token formatting at the end of VkClient.upload_media. -/
def format_attachment (media_type : String) (r : UploadOk) : String :=
  media_type ++ toString r.owner_id ++ "_" ++ toString r.item_id

/-- Embedding of VkClient.upload_media.  The dictionary of bound upload
methods is built before the try block: when the upload client is
uninitialised (self._upload is None) the attribute access raises
AttributeError to the caller, and an unsupported media type raises
ValueError to the caller.  Inside the try block every failure is caught
and turned into a returned None: a missing file (FileNotFoundError), an
oversized file (ValueError), a retry-exhausted VkApiError, any other
exception, and a falsy retry result.  On success the formatted attachment
token is returned.  The internal refresh_token_if_needed call cannot raise
and does not affect the result. -/
def upload_media (uploadInit : Bool) (media_type : String)
    (fileExists : Bool) (fileSize : Nat) (maxRetries : Nat)
    (outcomes : Nat → CallOutcome UploadOk) : Except PyExc (Option String) :=
  if !uploadInit then Except.error PyExc.attributeError
  else if media_type ∉ supported_media_types then
    Except.error PyExc.valueError
  else if !fileExists then Except.ok none
  else if fileSize > max_upload_size media_type then Except.ok none
  else
    match (executeWithRetry maxRetries outcomes).1 with
    | RetryResult.ok r => Except.ok (some (format_attachment media_type r))
    | _ => Except.ok none

/-- The wall.post response: the value of its post_id key, if present. -/
structure WallResp where
  post_id : Option Nat
deriving Repr, DecidableEq

/-- Embedding of VkClient.create_post.  An uninitialised API client
returns None at once.  The cfg = none branch models the owner-id
computation abs(None) raising TypeError; it is unreachable in the client
because self._api is only ever set by configure, which also stores the
target id.  The try block catches every exception from the retried
wall.post call (including the attribute error from calling .get on a None
response) and returns None; on success it returns the post_id value of
the response. -/
def create_post (apiInit : Bool) (cfg : Option VkConfig) (maxRetries : Nat)
    (outcomes : Nat → CallOutcome WallResp) : Except PyExc (Option Nat) :=
  if !apiInit then Except.ok none
  else
    match cfg with
    | none => Except.error PyExc.typeError
    | some _ =>
      match (executeWithRetry maxRetries outcomes).1 with
      | RetryResult.ok r => Except.ok r.post_id
      | _ => Except.ok none

/-! ## Concrete inputs used by the witnesses -/

/-- Oracle for get_source_link_for_edit used in concrete runs. -/
def sampleLinkOracle : Int → String :=
  fun mid => "https://t.me/ch/" ++ toString mid

/-- A destination post carrying one well-formed photo attachment. -/
def sampleEditAtts : List VkAttachment := [⟨"photo", true, -100, 33⟩]

/-- Upload outcomes that succeed immediately. -/
def sampleUploadOutcomes : Nat → CallOutcome UploadOk :=
  fun _ => CallOutcome.ok ⟨1, 2⟩

/-- wall.post outcomes that succeed immediately with post id 555. -/
def sampleWallOutcomes : Nat → CallOutcome WallResp :=
  fun _ => CallOutcome.ok ⟨some 555⟩

/-- Operation outcomes that fail with a VkApiError on the first two
attempts and return 42 on the third. -/
def sampleRetryOutcomes : Nat → CallOutcome Nat :=
  fun i => if i < 2 then CallOutcome.vkError i else CallOutcome.ok 42

/-- Operation outcomes that fail with a VkApiError on every attempt. -/
def sampleAllFailOutcomes : Nat → CallOutcome Nat :=
  fun i => CallOutcome.vkError i

/-- Operation outcomes whose first attempt raises a non-VkApiError
exception. -/
def sampleNonRetryableOutcomes : Nat → CallOutcome Nat :=
  fun i => CallOutcome.otherError (100 + i)

/-- Edit outcomes that fail by raising on the first two attempts and
succeed on the third. -/
def sampleEditOutcomes : Nat → EditAttempt :=
  fun i => if i = 2 then EditAttempt.ok else EditAttempt.raised

/-- Edit outcomes that succeed immediately. -/
def alwaysEditOk : Nat → EditAttempt :=
  fun _ => EditAttempt.ok

/-- Edit outcomes that fail (returning False) on every attempt. -/
def neverEditOk : Nat → EditAttempt :=
  fun _ => EditAttempt.retFalse

/-! ## Theorems for the claims -/

/-- Claim C1: for every target id t, a post published in post-as-page mode
(post_as_group = 1) is submitted with owner id -abs(t), and a post published
in post-as-account mode (post_as_group = 0) is submitted with owner id
abs(t), regardless of the sign of the configured target id.  The hypotheses
only exclude the inputs VkClient.configure rejects with ValueError (empty
token, zero id). -/
theorem owner_id_sign_convention (t : Int) (tok : String)
    (htok : tok ≠ "") (ht : t ≠ 0) :
    (configure tok t 1).map create_post_owner_id = some (-|t|) ∧
    (configure tok t 0).map create_post_owner_id = some |t| := by
  have hcond : ¬(tok = "" ∨ t = 0) := by
    rintro (h | h) <;> [exact htok h; exact ht h]
  constructor
  · simp only [configure, hcond, if_false, if_pos rfl, Option.map_some]
    simp [create_post_owner_id, format_owner_id]
    rcases lt_or_le t 0 with h | h
    · simp [h, abs_abs]
    · rw [if_neg (not_lt.mpr h)]
      simp [abs_abs]
  · simp only [configure, hcond, if_false]
    norm_num
    simp [create_post_owner_id, abs_abs, abs_nonneg]

/-- Witness for owner_id_sign_convention at the concrete target id -7. -/
theorem owner_id_sign_convention_witness :
    (configure "tok" (-7) 1).map create_post_owner_id = some (-7) ∧
    (configure "tok" (-7) 0).map create_post_owner_id = some 7 := by
  have h := owner_id_sign_convention (-7) "tok" (by decide)
    (by decide)
  simpa using h

/-- Claim C2: for a stored credential carrying an expiry timestamp, a
refresh call to the identity provider is attempted if and only if
now + 300 seconds is at least the expiry (exactly one call in that case,
and the still-valid token is reused with no call otherwise); a credential
with no expiry timestamp always triggers a refresh attempt.  The credsOk
hypothesis states that the application id and secret are configured, which
the code checks before issuing the HTTP request. -/
theorem token_refresh_margin (r : TargetRow) (now : Int)
    (resp : Option String) :
    (∀ expiry, r.expires_at = some expiry →
      (now + 300 ≥ expiry →
        (refresh_token_if_needed (some r) now true resp).2 = 1) ∧
      (now + 300 < expiry →
        refresh_token_if_needed (some r) now true resp = (true, 0))) ∧
    (r.expires_at = none →
      (refresh_token_if_needed (some r) now true resp).2 = 1) := by
  constructor
  · intro expiry hexp
    constructor
    · intro hge
      simp [refresh_token_if_needed, hexp, hge, refresh_vk_token]
    · intro hlt
      simp [refresh_token_if_needed, hexp, not_le.mpr hlt, refresh_vk_token]
  · intro hexp
    simp [refresh_token_if_needed, hexp, refresh_vk_token]

/-- Witness for token_refresh_margin: with expiry 1000, at now = 699
(expiry - now = 301) the token is reused with zero refresh calls, at
now = 701 (expiry - now = 299) exactly one refresh call is made, and a row
without expiry always triggers one refresh call. -/
theorem token_refresh_margin_witness :
    refresh_token_if_needed (some ⟨"a", some "r", some 1000⟩) 699 true
      (some "n") = (true, 0) ∧
    (refresh_token_if_needed (some ⟨"a", some "r", some 1000⟩) 701 true
      (some "n")).2 = 1 ∧
    (refresh_token_if_needed (some ⟨"a", some "r", none⟩) 699 true
      (some "n")).2 = 1 := by
  refine ⟨?_, ?_, ?_⟩
  · exact ((token_refresh_margin ⟨"a", some "r", some 1000⟩ 699
      (some "n")).1 1000 rfl).2 (by decide)
  · exact ((token_refresh_margin ⟨"a", some "r", some 1000⟩ 701
      (some "n")).1 1000 rfl).1 (by decide)
  · exact (token_refresh_margin ⟨"a", some "r", none⟩ 699 (some "n")).2 rfl

/-- Helper: if the first k attempts starting at the given index raise
VkApiError and attempt k returns, the retry loop returns that value after
k + 1 calls, sleeping 2 ^ (attempt + j) seconds after each failure j. -/
theorem executeWithRetryAux_ok_after_failures {α : Type}
    (outcomes : Nat → CallOutcome α) (v : α) :
    ∀ (k attempt rem : Nat), k < rem →
      (∀ j, j < k → ∃ ej, outcomes (attempt + j) = CallOutcome.vkError ej) →
      outcomes (attempt + k) = CallOutcome.ok v →
      executeWithRetryAux outcomes attempt rem =
        (RetryResult.ok v, k + 1,
          (List.range k).map (fun j => 2 ^ (attempt + j))) := by
  intro k
  induction k with
  | zero =>
    intro attempt rem hlt _hfail hok
    match rem, hlt with
    | Nat.succ r, _ =>
      simp only [Nat.add_zero] at hok
      simp [executeWithRetryAux, hok]
  | succ k ih =>
    intro attempt rem hlt hfail hok
    match rem, hlt with
    | Nat.succ (Nat.succ r'), hlt =>
    obtain ⟨e0, he0⟩ := hfail 0 (Nat.succ_pos k)
    simp only [Nat.add_zero] at he0
    have hr : k < Nat.succ r' := by omega
    have hrec := ih (attempt + 1) (Nat.succ r') hr
      (fun j hj => by
        obtain ⟨ej, hej⟩ := hfail (j + 1) (Nat.succ_lt_succ hj)
        exact ⟨ej, by rwa [show attempt + (j + 1) = attempt + 1 + j by omega]
          at hej⟩)
      (by rwa [show attempt + (k + 1) = attempt + 1 + k by omega] at hok)
    simp only [executeWithRetryAux, he0, hrec]
    refine Prod.ext rfl (Prod.ext rfl ?_)
    simp only [List.range_succ_eq_map, List.map_cons, List.map_map,
      Nat.add_zero, List.cons.injEq, true_and]
    apply List.map_congr_left
    intro j _
    simp only [Function.comp_apply, Nat.succ_eq_add_one]
    ring_nf

/-- Helper: if every attempt starting at the given index raises VkApiError,
the retry loop re-raises the final attempt error unchanged after rem
calls, sleeping after every failure but the last. -/
theorem executeWithRetryAux_all_fail {α : Type}
    (outcomes : Nat → CallOutcome α) :
    ∀ (rem attempt : Nat) (e : Nat → Nat), 0 < rem →
      (∀ j, j < rem → outcomes (attempt + j) = CallOutcome.vkError (e j)) →
      executeWithRetryAux outcomes attempt rem =
        (RetryResult.vkRaise (e (rem - 1)), rem,
          (List.range (rem - 1)).map (fun j => 2 ^ (attempt + j))) := by
  intro rem
  induction rem with
  | zero => intro attempt e h; exact absurd h (by decide)
  | succ r ih =>
    intro attempt e _hpos hfail
    have he0 := hfail 0 (Nat.succ_pos r)
    simp only [Nat.add_zero] at he0
    match r with
    | 0 => simp [executeWithRetryAux, he0]
    | Nat.succ r' =>
      have hrec := ih (attempt + 1) (fun j => e (j + 1)) (Nat.succ_pos r')
        (fun j hj => by
          have hj1 := hfail (j + 1) (Nat.succ_lt_succ hj)
          show outcomes (attempt + 1 + j) = CallOutcome.vkError (e (j + 1))
          rwa [show attempt + (j + 1) = attempt + 1 + j by omega] at hj1)
      simp only [executeWithRetryAux, he0, hrec]
      refine Prod.ext rfl (Prod.ext rfl ?_)
      simp only [Nat.succ_sub_one, List.range_succ_eq_map, List.map_cons,
        List.map_map, Nat.add_zero, List.cons.injEq, true_and]
      apply List.map_congr_left
      intro j _
      simp only [Function.comp_apply, Nat.succ_eq_add_one]
      ring_nf

/-- Claim C7: for every operation wrapped by _execute_with_retry with
maxA attempts (base delay 1 second, the constant the code uses): a
VkApiError on a non-final attempt i is followed by a sleep of 2 ^ i
seconds and a retry, so that k transient failures followed by a success
yield the value after k + 1 calls with sleeps 2 ^ 0, ..., 2 ^ (k - 1); a
VkApiError on the final attempt is re-raised unchanged to the caller; and
a non-VkApiError failure is never retried: it propagates after a single
call with no sleep. -/
theorem retryable_call_discipline :
    (∀ (α : Type) (o : Nat → CallOutcome α) (v : α) (k maxA : Nat),
      k < maxA →
      (∀ j, j < k → ∃ ej, o j = CallOutcome.vkError ej) →
      o k = CallOutcome.ok v →
      executeWithRetry maxA o =
        (RetryResult.ok v, k + 1, (List.range k).map (fun j => 2 ^ j))) ∧
    (∀ (α : Type) (o : Nat → CallOutcome α) (e : Nat → Nat) (maxA : Nat),
      0 < maxA →
      (∀ j, j < maxA → o j = CallOutcome.vkError (e j)) →
      executeWithRetry maxA o =
        (RetryResult.vkRaise (e (maxA - 1)), maxA,
          (List.range (maxA - 1)).map (fun j => 2 ^ j))) ∧
    (∀ (α : Type) (o : Nat → CallOutcome α) (err maxA : Nat),
      0 < maxA → o 0 = CallOutcome.otherError err →
      executeWithRetry maxA o = (RetryResult.otherRaise err, 1, [])) := by
  refine ⟨?_, ?_, ?_⟩
  · intro α o v k maxA hlt hfail hok
    have h := executeWithRetryAux_ok_after_failures o v k 0 maxA hlt
      (by simpa using hfail) (by simpa using hok)
    simpa [executeWithRetry] using h
  · intro α o e maxA hpos hfail
    have h := executeWithRetryAux_all_fail o maxA 0 e hpos
      (by simpa using hfail)
    simpa [executeWithRetry] using h
  · intro α o err maxA hpos h0
    obtain ⟨m, rfl⟩ := Nat.exists_eq_succ_of_ne_zero hpos.ne'
    simp [executeWithRetry, executeWithRetryAux, h0]

/-- Witness for retryable_call_discipline at max_retries = 3: two
VkApiError failures then a success give the value after 3 calls with
sleeps of 1 and 2 seconds; three failures re-raise the last error after 3
calls; a non-retryable first failure propagates after one call. -/
theorem retryable_call_discipline_witness :
    executeWithRetry 3 sampleRetryOutcomes =
      (RetryResult.ok 42, 3, [1, 2]) ∧
    executeWithRetry 3 sampleAllFailOutcomes =
      (RetryResult.vkRaise 2, 3, [1, 2]) ∧
    executeWithRetry 3 sampleNonRetryableOutcomes =
      (RetryResult.otherRaise 100, 1, []) := by
  refine ⟨?_, ?_, ?_⟩
  · have h := retryable_call_discipline.1 Nat sampleRetryOutcomes 42 2 3
      (by decide)
      (fun j hj => ⟨j, by simp [sampleRetryOutcomes, hj]⟩)
      (by decide)
    simpa using h
  · have h := retryable_call_discipline.2.1 Nat sampleAllFailOutcomes
      (fun j => j) 3 (by decide) (fun j _ => rfl)
    simpa using h
  · exact retryable_call_discipline.2.2 Nat sampleNonRetryableOutcomes
      100 3 (by decide) rfl

/-- Claim C5: an edit propagation whose underlying edit_post call fails on
the first two attempts and succeeds on the third yields overall success
with exactly 3 calls and sleeps of 1 second after the first failure and 2
seconds after the second; a success on any attempt returns immediately
(here: on the first attempt, after one call and no sleep); failure on all
three attempts is returned to the caller as failure. -/
theorem edit_retry_three_attempts :
    (∀ o : Nat → EditAttempt,
      o 0 ≠ EditAttempt.ok → o 1 ≠ EditAttempt.ok → o 2 = EditAttempt.ok →
      editedHandle o = (true, 3, [1, 2])) ∧
    (∀ o : Nat → EditAttempt, o 0 = EditAttempt.ok →
      editedHandle o = (true, 1, [])) ∧
    (∀ o : Nat → EditAttempt, (∀ i, i < 3 → o i ≠ EditAttempt.ok) →
      editedHandle o = (false, 3, [1, 2])) := by
  refine ⟨?_, ?_, ?_⟩
  · intro o h0 h1 h2
    cases e0 : o 0 with
    | ok => exact absurd e0 h0
    | retFalse =>
      cases e1 : o 1 with
      | ok => exact absurd e1 h1
      | retFalse => simp [editedHandle, editedHandleAux, e0, e1, h2]
      | raised => simp [editedHandle, editedHandleAux, e0, e1, h2]
    | raised =>
      cases e1 : o 1 with
      | ok => exact absurd e1 h1
      | retFalse => simp [editedHandle, editedHandleAux, e0, e1, h2]
      | raised => simp [editedHandle, editedHandleAux, e0, e1, h2]
  · intro o h0
    simp [editedHandle, editedHandleAux, h0]
  · intro o h
    have h0 := h 0 (by decide)
    have h1 := h 1 (by decide)
    have h2 := h 2 (by decide)
    cases e0 : o 0 with
    | ok => exact absurd e0 h0
    | retFalse =>
      cases e1 : o 1 with
      | ok => exact absurd e1 h1
      | retFalse =>
        cases e2 : o 2 with
        | ok => exact absurd e2 h2
        | retFalse => simp [editedHandle, editedHandleAux, e0, e1, e2]
        | raised => simp [editedHandle, editedHandleAux, e0, e1, e2]
      | raised =>
        cases e2 : o 2 with
        | ok => exact absurd e2 h2
        | retFalse => simp [editedHandle, editedHandleAux, e0, e1, e2]
        | raised => simp [editedHandle, editedHandleAux, e0, e1, e2]
    | raised =>
      cases e1 : o 1 with
      | ok => exact absurd e1 h1
      | retFalse =>
        cases e2 : o 2 with
        | ok => exact absurd e2 h2
        | retFalse => simp [editedHandle, editedHandleAux, e0, e1, e2]
        | raised => simp [editedHandle, editedHandleAux, e0, e1, e2]
      | raised =>
        cases e2 : o 2 with
        | ok => exact absurd e2 h2
        | retFalse => simp [editedHandle, editedHandleAux, e0, e1, e2]
        | raised => simp [editedHandle, editedHandleAux, e0, e1, e2]

/-- Witness for edit_retry_three_attempts: two raising attempts followed by
a success, an immediately successful edit, and three failed attempts. -/
theorem edit_retry_three_attempts_witness :
    editedHandle sampleEditOutcomes = (true, 3, [1, 2]) ∧
    editedHandle alwaysEditOk = (true, 1, []) ∧
    editedHandle neverEditOk = (false, 3, [1, 2]) := by
  refine ⟨?_, ?_, ?_⟩
  · exact edit_retry_three_attempts.1 sampleEditOutcomes (by decide)
      (by decide) (by decide)
  · exact edit_retry_three_attempts.2.1 alwaysEditOk rfl
  · exact edit_retry_three_attempts.2.2 neverEditOk (fun i _ => by
      simp [neverEditOk])

/-- Claim C3 (code bug): the claim states that the scratch file is absent
from the filesystem when the media-transfer invocation returns on every
exit path, including download failure.  The code violates this on the
download-failure path: when bot.download_file writes a partial file and
then raises on the first attempt, and the remaining attempts fail too, the
final exception is re-raised and FileManager.download_file returns
(False, CRITICAL_ERROR) without unlinking the destination, after which
MediaHandler._handle_photo returns None without running any cleanup — its
try/finally cleanup only surrounds the upload, which is reached only after
a successful download.  This theorem evaluates the pipeline on that
failing trace: the handler returns None while the scratch file still
exists (second component true). -/
theorem scratch_file_survives_download_failure :
    media_handle ⟨none, none, some "cap", 10⟩ (some ()) 100 "link"
      [DlAttempt.dlErrDirty, DlAttempt.getFileErr, DlAttempt.getFileErr]
      none = (none, true, [MEv.download]) := rfl

/-- Claim C6: a single attachment whose declared size exceeds the
configured maximum never reaches the download step; the handler instead
submits a text-only post (no attachments) whose body is the message
caption followed by a human-readable notice that the file is available via
the source link, with the attribution link attached in the copyright
field. -/
theorem oversized_file_fallback (m : PhotoMsg) (maxFileSize : Nat)
    (sourceLink : String) (dl : List DlAttempt) (postRes : Option Nat)
    (hforward : is_user_forward m = false)
    (hsize : m.file_size > maxFileSize) :
    media_handle m (some ()) maxFileSize sourceLink dl postRes =
      (postRes, false,
        [MEv.createPost
          ((m.caption.getD "") ++ "\n\n" ++ "Фото доступен по ссылке: " ++
            sourceLink)
          "" (some sourceLink)]) ∧
    MEv.download ∉
      (media_handle m (some ()) maxFileSize sourceLink dl postRes).2.2 := by
  have h : media_handle m (some ()) maxFileSize sourceLink dl postRes =
      (postRes, false, [oversized_post_event m.caption sourceLink]) := by
    simp [media_handle, hforward, handle_photo, hsize]
  refine ⟨by simpa [oversized_post_event] using h, ?_⟩
  rw [h]
  simp [oversized_post_event]

/-- Witness for oversized_file_fallback: a 200-byte photo against a
100-byte limit produces only the text-only fallback submission. -/
theorem oversized_file_fallback_witness :
    media_handle ⟨none, none, some "cap", 200⟩ (some ()) 100 "link" []
      (some 9) =
      (some 9, false,
        [MEv.createPost
          ("cap" ++ "\n\n" ++ "Фото доступен по ссылке: " ++ "link")
          "" (some "link")]) ∧
    MEv.download ∉
      (media_handle ⟨none, none, some "cap", 200⟩ (some ()) 100 "link" []
        (some 9)).2.2 :=
  oversized_file_fallback ⟨none, none, some "cap", 200⟩ 100 "link" []
    (some 9) rfl (by decide)

/-- Claim C9: an inbound message forwarded from an individual user account
(forward_from set, forward_from_chat absent) makes the handler terminate
skipped: it returns None, creates no scratch file, and performs no action
at all — in particular no upload, no post creation and no credential
refresh, since the empty action trace contains no call whatsoever. -/
theorem user_forward_skipped (m : PhotoMsg) (settings : Option Unit)
    (maxFileSize : Nat) (sourceLink : String) (dl : List DlAttempt)
    (postRes : Option Nat) (hfrom : m.forward_from.isSome = true)
    (hchat : m.forward_from_chat = none) :
    media_handle m settings maxFileSize sourceLink dl postRes =
      (none, false, []) := by
  have h : is_user_forward m = true := by
    simp [is_user_forward, hfrom, hchat]
  simp [media_handle, h]

/-- Witness for user_forward_skipped: a photo message forwarded from user
42 with an active channel configuration is skipped with no action. -/
theorem user_forward_skipped_witness :
    media_handle ⟨some 42, none, some "cap", 10⟩ (some ()) 100 "link"
      [DlAttempt.dlOk true] (some 9) = (none, false, []) :=
  user_forward_skipped ⟨some 42, none, some "cap", 10⟩ (some ()) 100 "link"
    [DlAttempt.dlOk true] (some 9) rfl rfl

/-- Helper: filtering a mapped list by a predicate the map preserves is
the map of the filtered list. -/
theorem filter_map_of_key_preserving {α : Type} (p : α → Bool) (f : α → α)
    (hf : ∀ a, p (f a) = p a) :
    ∀ l : List α, (l.map f).filter p = (l.filter p).map f := by
  intro l
  induction l with
  | nil => rfl
  | cons a t ih =>
    simp only [List.map_cons, List.filter_cons, hf a]
    cases h : p a
    · simpa [h] using ih
    · simpa [h] using ih

/-- Claim C4: performing the post-mapping upsert twice for the same
(source message id, owning user id) key with two different destination
post ids, starting from a table with no row for that key, leaves exactly
one PostMapping row for that key, and the keyed lookup then returns the
post id of the second upsert. -/
theorem post_mapping_upsert_idempotent (table : List PostRow) (u m : Int)
    (p1 p2 : String)
    (h0 : (table.filter (post_key_matches u m)).length = 0)
    (_hne : p1 ≠ p2) :
    ((save_post_mapping (save_post_mapping table u m p1) u m p2).filter
      (post_key_matches u m)).length = 1 ∧
    (get_post_by_message_id
      (save_post_mapping (save_post_mapping table u m p1) u m p2) m u).map
      PostRow.vk_post_id = some p2 := by
  have hfil : table.filter (post_key_matches u m) = [] :=
    List.length_eq_zero.mp h0
  have hkeyrow : post_key_matches u m ⟨u, m, p1, "published"⟩ = true := by
    simp [post_key_matches]
  have h1 : save_post_mapping table u m p1 =
      table ++ [⟨u, m, p1, "published"⟩] := by
    simp [save_post_mapping, hfil]
  have hfil1 : (table ++ [(⟨u, m, p1, "published"⟩ : PostRow)]).filter
      (post_key_matches u m) = [⟨u, m, p1, "published"⟩] := by
    simp [List.filter_append, hfil, hkeyrow]
  have hf : ∀ r : PostRow,
      post_key_matches u m
        (if post_key_matches u m r then apply_post_update p2 r else r) =
      post_key_matches u m r := by
    intro r
    by_cases h : post_key_matches u m r = true
    · rw [if_pos h]
      rfl
    · rw [if_neg h]
  have h2 : save_post_mapping (table ++ [⟨u, m, p1, "published"⟩]) u m p2 =
      (table ++ [(⟨u, m, p1, "published"⟩ : PostRow)]).map fun r =>
        if post_key_matches u m r then apply_post_update p2 r else r := by
    simp [save_post_mapping, hfil1]
  have hfil2 :
      ((table ++ [(⟨u, m, p1, "published"⟩ : PostRow)]).map (fun r =>
        if post_key_matches u m r then apply_post_update p2 r else r)).filter
        (post_key_matches u m) =
      [apply_post_update p2 ⟨u, m, p1, "published"⟩] := by
    rw [filter_map_of_key_preserving _ _ hf, hfil1]
    simp [hkeyrow]
  constructor
  · rw [h1, h2, hfil2]
    rfl
  · rw [h1, h2]
    unfold get_post_by_message_id
    rw [hfil2]
    simp [apply_post_update]

/-- Witness for post_mapping_upsert_idempotent: two upserts into an empty
table for key (message 2, user 1) with post ids 10 then 11 leave one row
holding 11. -/
theorem post_mapping_upsert_idempotent_witness :
    ((save_post_mapping (save_post_mapping [] 1 2 "10") 1 2 "11").filter
      (post_key_matches 1 2)).length = 1 ∧
    (get_post_by_message_id
      (save_post_mapping (save_post_mapping [] 1 2 "10") 1 2 "11") 2 1).map
      PostRow.vk_post_id = some "11" :=
  post_mapping_upsert_idempotent [] 1 2 "10" "11" rfl (by decide)

/-- Helper: when every fetched attachment is well formed (truthy type,
typed entry present, truthy owner and item ids), the extraction keeps
exactly the token of every attachment, in order. -/
theorem extract_attachment_tokens_eq_map (atts : List VkAttachment)
    (h : ∀ a ∈ atts, a.attach_kind ≠ "" ∧ a.hasTyped = true ∧
      a.owner_id ≠ 0 ∧ a.item_id ≠ 0) :
    extract_attachment_tokens atts = atts.map attachment_token := by
  induction atts with
  | nil => rfl
  | cons a t ih =>
    have ha := h a (by simp)
    have ht := ih fun b hb => h b (by simp [hb])
    simp only [extract_attachment_tokens, List.filterMap_cons] at ht ⊢
    rw [if_pos ha, ht, List.map_cons]

/-- Claim C8 counterexample: a successful edit propagation run exactly as
EditedHandler.handle performs it — edit_post is called without a
message_id — submits copyright none to wall.edit: no recomputed
attribution link is included, contradicting the claim.  The attachment
list is preserved, so only the attribution-link half fails. -/
theorem edited_handler_submits_no_attribution_link :
    edit_post true ⟨"tok", 100, 1⟩ 77 "new text" none sampleLinkOracle
      (some sampleEditAtts) true =
      (true, some ⟨-100, 77, "new text", "photo-100_33", none⟩) := by
  decide

/-- Claim C8 (amended): for every successful edit propagation, the edit
submission carries exactly the attachment tokens of the (well-formed)
attachments read from the existing destination post, so a text-only edit
drops no attachment; but the attribution link is recomputed and included
only when a source message id is passed to edit_post — the edit handler
passes none, so propagated edits submit an empty copyright field. -/
theorem edit_preserves_attachments (cfg : VkConfig) (post_id : Int)
    (new_text : String) (oracle : Int → String) (atts : List VkAttachment)
    (editOk : Bool)
    (hwf : ∀ a ∈ atts, a.attach_kind ≠ "" ∧ a.hasTyped = true ∧
      a.owner_id ≠ 0 ∧ a.item_id ≠ 0) :
    (edit_post true cfg post_id new_text none oracle (some atts)
      editOk).2 =
      some { owner_id := edit_owner_id cfg, post_id := post_id,
             message := new_text,
             attachments :=
               String.intercalate "," (atts.map attachment_token),
             copyright := none } ∧
    (∀ mid : Int, mid ≠ 0 →
      (edit_post true cfg post_id new_text (some mid) oracle (some atts)
        editOk).2 =
      some { owner_id := edit_owner_id cfg, post_id := post_id,
             message := new_text,
             attachments :=
               String.intercalate "," (atts.map attachment_token),
             copyright := some (oracle mid) }) := by
  have hex := extract_attachment_tokens_eq_map atts hwf
  constructor
  · cases editOk <;> simp [edit_post, hex]
  · intro mid hmid
    cases editOk <;> simp [edit_post, hex, hmid]

/-- Witness for edit_preserves_attachments on the sample post with one
photo attachment, both without a message id (handler path) and with
message id 10. -/
theorem edit_preserves_attachments_witness :
    (edit_post true ⟨"tok", 100, 1⟩ 77 "new text" none sampleLinkOracle
      (some sampleEditAtts) true).2 =
      some { owner_id := edit_owner_id ⟨"tok", 100, 1⟩, post_id := 77,
             message := "new text",
             attachments :=
               String.intercalate "," (sampleEditAtts.map attachment_token),
             copyright := none } ∧
    (edit_post true ⟨"tok", 100, 1⟩ 77 "new text" (some 10)
      sampleLinkOracle (some sampleEditAtts) true).2 =
      some { owner_id := edit_owner_id ⟨"tok", 100, 1⟩, post_id := 77,
             message := "new text",
             attachments :=
               String.intercalate "," (sampleEditAtts.map attachment_token),
             copyright := some (sampleLinkOracle 10) } := by
  have h := edit_preserves_attachments ⟨"tok", 100, 1⟩ 77 "new text"
    sampleLinkOracle sampleEditAtts true (by decide)
  exact ⟨h.1, h.2 10 (by decide)⟩

/-- Claim C10 counterexample: VkClient.upload_media called with an
unsupported media type raises ValueError to its caller (the check sits
before the try/except block), instead of returning None as the claim
states. -/
theorem upload_media_raises_on_unsupported_type :
    upload_media true "gif" true 5 3 sampleUploadOutcomes =
      Except.error PyExc.valueError := rfl

/-- Claim C10 (amended): create_post never raises — every failure,
including an uninitialised API client, retry exhaustion and unexpected
exceptions, yields a returned None, and a non-None return is the post id
of the wall.post response; upload_media likewise returns None for every
failure inside its exception handler (missing file, oversized file, retry
exhaustion, unexpected exception), but it raises ValueError to the caller
on an unsupported media type and AttributeError when the upload client is
uninitialised, because both checks precede the handler. -/
theorem create_post_and_upload_media_error_paths :
    (∀ (apiInit : Bool) (cfg : Option VkConfig) (mr : Nat)
      (o : Nat → CallOutcome WallResp),
      (apiInit = true → cfg.isSome = true) →
      ∃ v, create_post apiInit cfg mr o = Except.ok v) ∧
    (∀ (mt : String) (fe : Bool) (fs mr : Nat)
      (o : Nat → CallOutcome UploadOk),
      mt ∈ supported_media_types →
      ∃ v, upload_media true mt fe fs mr o = Except.ok v) ∧
    (∀ (mt : String) (fe : Bool) (fs mr : Nat)
      (o : Nat → CallOutcome UploadOk),
      mt ∉ supported_media_types →
      upload_media true mt fe fs mr o = Except.error PyExc.valueError) ∧
    (∀ (mt : String) (fe : Bool) (fs mr : Nat)
      (o : Nat → CallOutcome UploadOk),
      upload_media false mt fe fs mr o = Except.error PyExc.attributeError)
    := by
  refine ⟨?_, ?_, ?_, ?_⟩
  · intro apiInit cfg mr o h
    cases apiInit with
    | false => exact ⟨none, rfl⟩
    | true =>
      obtain ⟨c, rfl⟩ := Option.isSome_iff_exists.mp (h rfl)
      cases hx : (executeWithRetry mr o).1 with
      | ok r => exact ⟨r.post_id, by simp [create_post, hx]⟩
      | vkRaise e => exact ⟨none, by simp [create_post, hx]⟩
      | otherRaise e => exact ⟨none, by simp [create_post, hx]⟩
      | exhausted => exact ⟨none, by simp [create_post, hx]⟩
  · intro mt fe fs mr o h
    cases fe with
    | false => exact ⟨none, by simp [upload_media, h]⟩
    | true =>
      by_cases hs : fs > max_upload_size mt
      · exact ⟨none, by simp [upload_media, h, hs]⟩
      · cases hx : (executeWithRetry mr o).1 with
        | ok r => exact ⟨some (format_attachment mt r),
            by simp [upload_media, h, hs, hx]⟩
        | vkRaise e => exact ⟨none, by simp [upload_media, h, hs, hx]⟩
        | otherRaise e => exact ⟨none, by simp [upload_media, h, hs, hx]⟩
        | exhausted => exact ⟨none, by simp [upload_media, h, hs, hx]⟩
  · intro mt fe fs mr o h
    simp [upload_media, h]
  · intro mt fe fs mr o
    rfl

/-- Witness for create_post_and_upload_media_error_paths at concrete
inputs: a configured client posting successfully, a valid photo upload,
an unsupported media type, and an uninitialised upload client. -/
theorem create_post_and_upload_media_error_paths_witness :
    (∃ v, create_post true (some ⟨"tok", 100, 1⟩) 3 sampleWallOutcomes =
      Except.ok v) ∧
    (∃ v, upload_media true "photo" true 5 3 sampleUploadOutcomes =
      Except.ok v) ∧
    upload_media true "webm" true 5 3 sampleUploadOutcomes =
      Except.error PyExc.valueError ∧
    upload_media false "photo" true 5 3 sampleUploadOutcomes =
      Except.error PyExc.attributeError :=
  ⟨create_post_and_upload_media_error_paths.1 true (some ⟨"tok", 100, 1⟩)
      3 sampleWallOutcomes (fun _ => rfl),
    create_post_and_upload_media_error_paths.2.1 "photo" true 5 3
      sampleUploadOutcomes (by decide),
    create_post_and_upload_media_error_paths.2.2.1 "webm" true 5 3
      sampleUploadOutcomes (by decide),
    create_post_and_upload_media_error_paths.2.2.2 "photo" true 5 3
      sampleUploadOutcomes⟩

end TgVk
